import Mathlib

/-!
Verification of the mensa-localizations cache service (Go) against its
natural-language specification.

The development shallowly embeds the service's cache-orchestration code:
byte payloads are lists of naturals below 256, the external tiers (Redis,
S3, the Tolgee origin) are modelled as explicit per-call environments, and
the library primitives the code leans on (SHA-256, HMAC, hex, Go string
helpers, JSON decoding shapes) are given executable Lean definitions.

Two variants of the service live in the repository and the claims reference
both: the multi-app service in main.go (namespace `MainGo` below, with the
staleness monitor and background refresh) and the single-app service in
cache.go (namespace `SingleApp`, with the `force` flag, the webhook
handler and the language-negotiating HTTP handlers).
-/

set_option maxRecDepth 1000000

set_option maxHeartbeats 2000000

namespace MensaLoc

/-- Byte sequences are lists of naturals, each below 256. -/
abbrev Bytes := List Nat

/-- UTF-8 bytes of the two-character JSON text of an empty object: byte 123
is the opening curly brace, byte 125 the closing one. This is the fixed
sentinel the orchestrator returns when every tier fails. -/
def emptyObjectBytes : Bytes := [123, 125]

/-- Truncate to a 32-bit word. -/
def w32 (n : Nat) : Nat := n % 4294967296

/-- Right rotation of a 32-bit word. -/
def rotr (n x : Nat) : Nat := w32 ((x >>> n) ||| (x <<< (32 - n)))

/-- SHA-256 choice function; complement realised as xor with the all-ones word. -/
def ch (x y z : Nat) : Nat := (x &&& y) ^^^ ((x ^^^ 4294967295) &&& z)

/-- SHA-256 majority function. -/
def maj (x y z : Nat) : Nat := (x &&& y) ^^^ (x &&& z) ^^^ (y &&& z)

def bigSigma0 (x : Nat) : Nat := (rotr 2 x) ^^^ (rotr 13 x) ^^^ (rotr 22 x)

def bigSigma1 (x : Nat) : Nat := (rotr 6 x) ^^^ (rotr 11 x) ^^^ (rotr 25 x)

def smallSigma0 (x : Nat) : Nat := (rotr 7 x) ^^^ (rotr 18 x) ^^^ (x >>> 3)

def smallSigma1 (x : Nat) : Nat := (rotr 17 x) ^^^ (rotr 19 x) ^^^ (x >>> 10)

/-- The 64 SHA-256 round constants (FIPS 180-4). -/
def roundK : List Nat :=
  [1116352408, 1899447441, 3049323471, 3921009573,
   961987163, 1508970993, 2453635748, 2870763221,
   3624381080, 310598401, 607225278, 1426881987,
   1925078388, 2162078206, 2614888103, 3248222580,
   3835390401, 4022224774, 264347078, 604807628,
   770255983, 1249150122, 1555081692, 1996064986,
   2554220882, 2821834349, 2952996808, 3210313671,
   3336571891, 3584528711, 113926993, 338241895,
   666307205, 773529912, 1294757372, 1396182291,
   1695183700, 1986661051, 2177026350, 2456956037,
   2730485921, 2820302411, 3259730800, 3345764771,
   3516065817, 3600352804, 4094571909, 275423344,
   430227734, 506948616, 659060556, 883997877,
   958139571, 1322822218, 1537002063, 1747873779,
   1955562222, 2024104815, 2227730452, 2361852424,
   2428436474, 2756734187, 3204031479, 3329325298]

/-- Working state: the eight 32-bit hash registers of SHA-256. -/
structure Hs where
  a : Nat
  b : Nat
  c : Nat
  d : Nat
  e : Nat
  f : Nat
  g : Nat
  h : Nat

/-- Initial SHA-256 hash value (FIPS 180-4). -/
def h0 : Hs :=
  { a := 1779033703, b := 3144134277, c := 1013904242, d := 2773480762,
    e := 1359893119, f := 2600822924, g := 528734635, h := 1541459225 }

/-- Sixteen big-endian 32-bit words from one 64-byte message block. -/
def wordsOfBlock (blk : Bytes) : List Nat :=
  (List.range 16).map (fun i =>
    (blk.getD (4*i) 0) <<< 24 ||| (blk.getD (4*i+1) 0) <<< 16 |||
    (blk.getD (4*i+2) 0) <<< 8 ||| blk.getD (4*i+3) 0)

/-- Extend 16 schedule words to the full 64-entry message schedule. -/
def extendW (ws : List Nat) : List Nat :=
  (List.range 48).foldl (fun acc _ =>
    let n := acc.length
    acc ++ [w32 (smallSigma1 (acc.getD (n-2) 0) + acc.getD (n-7) 0 +
                 smallSigma0 (acc.getD (n-15) 0) + acc.getD (n-16) 0)]) ws

/-- One SHA-256 round on the register state. -/
def shaRound (st : Hs) (w k : Nat) : Hs :=
  let t1 := w32 (st.h + bigSigma1 st.e + ch st.e st.f st.g + k + w)
  let t2 := w32 (bigSigma0 st.a + maj st.a st.b st.c)
  { a := w32 (t1 + t2), b := st.a, c := st.b, d := st.c,
    e := w32 (st.d + t1), f := st.e, g := st.f, h := st.g }

/-- Compress one 64-byte block into the running state. -/
def compress (st : Hs) (blk : Bytes) : Hs :=
  let ws := extendW (wordsOfBlock blk)
  let fin := (ws.zip roundK).foldl (fun s wk => shaRound s wk.1 wk.2) st
  { a := w32 (st.a + fin.a), b := w32 (st.b + fin.b), c := w32 (st.c + fin.c),
    d := w32 (st.d + fin.d), e := w32 (st.e + fin.e), f := w32 (st.f + fin.f),
    g := w32 (st.g + fin.g), h := w32 (st.h + fin.h) }

/-- 64-bit big-endian byte encoding. -/
def be64 (n : Nat) : Bytes :=
  [(n >>> 56) % 256, (n >>> 48) % 256, (n >>> 40) % 256, (n >>> 32) % 256,
   (n >>> 24) % 256, (n >>> 16) % 256, (n >>> 8) % 256, n % 256]

/-- SHA-256 padding: byte 0x80, zero bytes, then the 64-bit big-endian bit
length, to the next multiple of 64 bytes. -/
def sha256Pad (msg : Bytes) : Bytes :=
  msg ++ [128] ++ List.replicate ((119 - msg.length % 64) % 64) 0 ++ be64 (8 * msg.length)

/-- Split into 64-byte blocks; the fuel argument makes the recursion structural. -/
def chunks64 : Nat → Bytes → List Bytes
  | 0, _ => []
  | _+1, [] => []
  | fuel+1, l => l.take 64 :: chunks64 fuel (l.drop 64)

/-- 32-bit big-endian byte encoding. -/
def be32 (x : Nat) : Bytes := [(x >>> 24) % 256, (x >>> 16) % 256, (x >>> 8) % 256, x % 256]

/-- Serialize the register state to the 32 digest bytes. -/
def digestBytes (st : Hs) : Bytes :=
  be32 st.a ++ be32 st.b ++ be32 st.c ++ be32 st.d ++
  be32 st.e ++ be32 st.f ++ be32 st.g ++ be32 st.h

/-- SHA-256 of a byte sequence (executable model of Go crypto/sha256). -/
def sha256 (msg : Bytes) : Bytes :=
  digestBytes ((chunks64 (msg.length + 73) (sha256Pad msg)).foldl compress h0)

/-- HMAC-SHA256 (RFC 2104, 64-byte block size), the model of Go crypto/hmac
with crypto/sha256. -/
def hmacSha256 (key msg : Bytes) : Bytes :=
  let k0 := if key.length > 64 then sha256 key else key
  let kp := k0 ++ List.replicate (64 - k0.length) 0
  sha256 ((kp.map (fun b => b ^^^ 92)) ++ sha256 ((kp.map (fun b => b ^^^ 54)) ++ msg))

/-- Lowercase hexadecimal digit character for a value below 16. -/
def hexDigitLower (n : Nat) : Char :=
  if n < 10 then Char.ofNat (48 + n) else Char.ofNat (87 + n)

/-- Uppercase hexadecimal digit character for a value below 16. -/
def hexDigitUpper (n : Nat) : Char :=
  if n < 10 then Char.ofNat (48 + n) else Char.ofNat (55 + n)

/-- Lowercase hex encoding of a byte sequence, the model of Go
encoding/hex EncodeToString. -/
def hexLower (bs : Bytes) : String :=
  String.mk (bs.foldr (fun b acc => hexDigitLower (b / 16) :: hexDigitLower (b % 16) :: acc) [])

/-- Uppercase hex spelling of a byte sequence (not produced by the code;
used to state the case-sensitivity claims). -/
def hexUpper (bs : Bytes) : String :=
  String.mk (bs.foldr (fun b acc => hexDigitUpper (b / 16) :: hexDigitUpper (b % 16) :: acc) [])

/-- UTF-8 encoding of one character. -/
def utf8EncodeChar (c : Char) : List Nat :=
  let n := c.toNat
  if n < 128 then [n]
  else if n < 2048 then [192 + n / 64, 128 + n % 64]
  else if n < 65536 then [224 + n / 4096, 128 + (n / 64) % 64, 128 + n % 64]
  else [240 + n / 262144, 128 + (n / 4096) % 64, 128 + (n / 64) % 64, 128 + n % 64]

/-- UTF-8 bytes of a string, the model of Go byte-slice conversion of a string. -/
def utf8Bytes (s : String) : Bytes :=
  s.toList.foldr (fun c acc => utf8EncodeChar c ++ acc) []

/-- ASCII whitespace recognised by the TrimSpace model (tab, newline,
vertical tab, form feed, carriage return, space); the Go original also
trims rare non-ASCII Unicode spaces, which no key or tag in this system
contains. -/
def isSpaceChar (c : Char) : Bool :=
  c.toNat = 9 || c.toNat = 10 || c.toNat = 11 || c.toNat = 12 || c.toNat = 13 || c.toNat = 32

/-- Model of Go strings.TrimSpace. -/
def goTrimSpace (s : String) : String :=
  String.mk (((s.toList.dropWhile isSpaceChar).reverse.dropWhile isSpaceChar).reverse)

/-- Replace every non-overlapping occurrence of a pattern, left to right;
fuel makes the recursion structural. Model of Go strings.ReplaceAll for a
non-empty pattern. -/
def replaceAllGo (fuel : Nat) (pat rep s : List Char) : List Char :=
  match fuel, s with
  | 0, rest => rest
  | _+1, [] => []
  | fuel+1, c :: rest =>
    if pat ≠ [] ∧ pat.isPrefixOf (c :: rest) then
      rep ++ replaceAllGo fuel pat rep ((c :: rest).drop pat.length)
    else
      c :: replaceAllGo fuel pat rep rest

/-- Model of Go strings.ReplaceAll on strings (non-empty pattern). -/
def goReplaceAll (s pat rep : String) : String :=
  String.mk (replaceAllGo s.toList.length pat.toList rep.toList s.toList)

/-- Split a character list at a separator character; model of Go
strings.Split with a one-character separator. -/
def splitOnChar (sep : Char) (cs : List Char) : List (List Char) :=
  cs.foldr (fun c acc =>
    match acc with
    | [] => if c = sep then [[], []] else [[c]]
    | g :: gs => if c = sep then [] :: (g :: gs) else (c :: g) :: gs) [[]]

/-- Decimal value of a non-empty all-digit character list. -/
def decDigitsVal (cs : List Char) : Option Nat :=
  match cs with
  | [] => none
  | _ =>
    if cs.all (fun c => c.isDigit) then
      some (cs.foldl (fun a c => 10 * a + (c.toNat - 48)) 0)
    else none

/-- Model of Go strconv.ParseInt(s, 10, 64): optional sign, decimal digits,
failure outside the signed 64-bit range. -/
def goParseInt64 (s : String) : Option Int :=
  let cs := s.toList
  let signDigits : Bool × List Char :=
    match cs with
    | '-' :: rest => (true, rest)
    | '+' :: rest => (false, rest)
    | _ => (false, cs)
  match decDigitsVal signDigits.2 with
  | none => none
  | some n =>
    let v : Int := if signDigits.1 then -(n : Int) else (n : Int)
    if v < -(2 ^ 63) ∨ (2 ^ 63 : Int) ≤ v then none else some v

/-- Model of Go strconv.ParseBool. -/
def goParseBool (s : String) : Option Bool :=
  if s = "1" ∨ s = "t" ∨ s = "T" ∨ s = "TRUE" ∨ s = "true" ∨ s = "True" then some true
  else if s = "0" ∨ s = "f" ∨ s = "F" ∨ s = "FALSE" ∨ s = "false" ∨ s = "False" then some false
  else none

/-!
Time. Instants are modelled as integer nanoseconds since the Unix epoch;
every timestamp the code manipulates carries whole seconds, so nothing is
lost. The zero value of Go time.Time is January 1 of year 1, which on this
axis is -62135596800 seconds.
-/

def nsPerSecond : Int := 1000000000

/-- The instant represented by the zero value of Go time.Time. -/
def zeroTimeNs : Int := -62135596800 * nsPerSecond

/-- Whole Unix seconds of an instant (model of time.Time.Unix for the
non-negative instants this service works with). -/
def unixSeconds (t : Int) : Int := t / nsPerSecond

/-- Outcome of one Redis GET as the code observes it: a hit carrying the
stored bytes, the redis.Nil miss, or any other (connectivity) error. -/
inductive RedisRead where
  | hit (b : Bytes)
  | missNil
  | errOther
deriving DecidableEq

/-- Whether a Redis read produced a value. -/
def RedisRead.isHit : RedisRead → Bool
  | .hit _ => true
  | _ => false

/-- Outcome of one origin (Tolgee) HTTP request: a transport error, or a
response with its status code and body bytes. -/
inductive OriginResp where
  | transportError
  | response (status : Nat) (body : Bytes)
deriving DecidableEq

/-- Whether an origin outcome yields no usable data: transport error,
non-2xx status, or empty body. -/
def originNoData : OriginResp → Bool
  | .transportError => true
  | .response st body => decide (st < 200) || decide (300 ≤ st) || body.isEmpty

/-!
S3 key scheme, translated from s3_keys.go and the key helpers in main.go /
cache.go.
-/

/-- Model of sanitizeKeyPart: trim, strip double-dot sequences, replace both
path separators with underscores, and never return the empty string. -/
def sanitizeKeyPart (s : String) : String :=
  let s1 := goTrimSpace s
  let s2 := goReplaceAll s1 ".." ""
  let s3 := goReplaceAll s2 "/" "_"
  let s4 := goReplaceAll s3 "\\" "_"
  if s4 = "" then "_" else s4

/-- LatestPointer object key for a translations export. -/
def s3LatestKey (appID lang : String) : String :=
  "localizations/" ++ sanitizeKeyPart appID ++ "/" ++ sanitizeKeyPart lang ++ "/latest.json"

/-- Immutable VersionedObject key for a translations export. -/
def s3VersionKey (appID lang tsUTC sha : String) : String :=
  "localizations/" ++ sanitizeKeyPart appID ++ "/" ++ sanitizeKeyPart lang ++ "/" ++
    tsUTC ++ "_" ++ sha ++ ".json"

/-- LatestPointer object key for a languages listing. -/
def s3LanguagesLatestKey (appID : String) : String :=
  "tolgee-languages/" ++ sanitizeKeyPart appID ++ "/latest.json"

/-- Immutable VersionedObject key for a languages listing. -/
def s3LanguagesVersionKey (appID tsUTC sha : String) : String :=
  "tolgee-languages/" ++ sanitizeKeyPart appID ++ "/" ++ tsUTC ++ "_" ++ sha ++ ".json"

/-!
Durable store. The bucket is an association list from object key to payload
bytes; a put prepends, so the newest write for a key shadows older ones and
a read returns the newest write. This models exactly the PutObject /
GetObject calls the subsystem issues (metadata other than the payload is
not needed by the claims about the store).
-/

/-- Bucket contents: newest write first. -/
abbrev S3Store := List (String × Bytes)

/-- Read the newest object stored under a key. -/
def s3Read (st : S3Store) (k : String) : Option Bytes :=
  (st.find? (fun kv => kv.1 == k)).map (fun kv => kv.2)

/-- Store an object under a key (PutObject). -/
def s3Write (st : S3Store) (k : String) (v : Bytes) : S3Store := (k, v) :: st

/-- Lowercase hex of the SHA-256 content hash, as putVersionAndLatest
computes it. -/
def sha256Hex (payload : Bytes) : String := hexLower (sha256 payload)

/-- Model of s3Client.putVersionAndLatest: write the immutable versioned
object named by timestamp and content hash, then overwrite the latest
pointer with the same payload. The timestamp string is the formatted
current UTC clock, passed in as a parameter. -/
def putVersionAndLatest (st : S3Store) (appID lang tsUTC : String) (payload : Bytes) : S3Store :=
  let hashHex := sha256Hex payload
  let versionKey := s3VersionKey appID lang tsUTC hashHex
  let latestKey := s3LatestKey appID lang
  s3Write (s3Write st versionKey payload) latestKey payload

/-- Model of s3Client.getLatest: download the latest-pointer payload. -/
def getLatest (st : S3Store) (appID lang : String) : Option Bytes :=
  s3Read st (s3LatestKey appID lang)

/-- Sidecar key suffix for the fetched-at timestamp (unix seconds). -/
def redisFetchedAtSuffix : String := ":fetched_utc"

/-- Staleness threshold, 15 minutes, in nanoseconds. -/
def staleAfterNs : Int := 15 * 60 * nsPerSecond

/-- Primary-cache value TTL, 10 minutes, in nanoseconds. -/
def redisValueTTLNs : Int := 10 * 60 * nsPerSecond

/-- Model of parseUnixSeconds: empty or non-numeric input yields the zero
time and false; otherwise the parsed unix seconds as an instant and true. -/
def parseUnixSeconds (s : String) : Int × Bool :=
  if s = "" then (zeroTimeNs, false)
  else
    match goParseInt64 s with
    | some i => (i * nsPerSecond, true)
    | none => (zeroTimeNs, false)

/-- Model of shouldRefresh from main.go: false on the zero time, otherwise
true exactly when the age exceeds the staleness threshold. -/
def shouldRefresh (now fetchedAt : Int) : Bool :=
  if fetchedAt = zeroTimeNs then false else decide (staleAfterNs < now - fetchedAt)

/-- Model of scheduleRefreshBestEffort: the detached task is deduplicated
under the coalescer namespace obtained by prefixing the key; the function
returns that namespace key. -/
def scheduleRefreshBestEffort (refreshKey : String) : String := "refresh:" ++ refreshKey

namespace MainGo

/-!
The multi-app service of main.go. One call of getTranslationsCached is a
pure function of the per-call environment below, which records what each
external tier would answer during this call. The singleflight fill is the
execution of the fill function by the winning caller; coalescing across
concurrent callers is outside this sequential model.
-/

/-- External-world answers observed during one lookup. -/
structure Env where
  /-- First rdb.Get of the value key. -/
  redis1 : RedisRead
  /-- rdb.Get of the fetched-at sidecar on a hit; none models error or miss. -/
  fetchedAtRaw : Option String
  /-- Clock at the staleness check on a Redis hit. -/
  nowHit : Int
  /-- Second rdb.Get of the value key, inside the fill. -/
  redis2 : RedisRead
  /-- Whether the durable tier is configured (s3c is non-nil). -/
  s3Enabled : Bool
  /-- s3c.getLatest outcome: an error, or the downloaded payload bytes. -/
  s3Latest : Except Unit Bytes
  /-- Clock taken in the S3-fallback branch. -/
  nowS3 : Int
  /-- headCreatedUTC of the latest object; none models any failure. -/
  s3CreatedAt : Option Int
  /-- Tolgee export call outcome. -/
  origin : OriginResp
  /-- Clock taken in the origin branch. -/
  nowOrigin : Int

/-- Everything one lookup returns and does to the outside world. -/
structure GetResult where
  /-- The payload returned to the caller. -/
  value : Bytes
  /-- The Go error returned to the caller. -/
  error : Option String
  /-- rdb.Set calls in order: key and stored bytes. -/
  redisSets : List (String × Bytes)
  /-- putVersionAndLatest calls: app, lang-with-mode, payload. -/
  s3PutCalls : List (String × String × Bytes)
  /-- Whether s3c.getLatest was contacted. -/
  s3LatestCalled : Bool
  /-- Whether the Tolgee export request was issued. -/
  originCalled : Bool
  /-- Coalescer namespace keys of scheduled background refreshes. -/
  refreshSched : List String
deriving DecidableEq

/-- Model of getTranslationsCached from main.go: Redis first (with the
staleness monitor on a hit), then inside the coalescer a second Redis
check, the S3 latest fallback (with write-back and a staleness check on
the latest object's creation time), then the Tolgee origin (with
write-back to Redis and, when the durable tier is enabled, a new version
plus latest-pointer write); every failure path returns the empty-object
sentinel with a nil error. -/
def getTranslationsCached (appID lang : String) (nested : Bool) (env : Env) : GetResult :=
  let mode := if nested then "nested" else "flat"
  let redisKey := "translations:" ++ appID ++ ":" ++ lang ++ ":" ++ mode
  let fetchedAtKey := redisKey ++ redisFetchedAtSuffix
  let originLeg : Bool → GetResult := fun s3Called =>
    if appID = "" then
      { value := emptyObjectBytes, error := none, redisSets := [], s3PutCalls := [],
        s3LatestCalled := s3Called, originCalled := false, refreshSched := [] }
    else
      match env.origin with
      | .transportError =>
        { value := emptyObjectBytes, error := none, redisSets := [], s3PutCalls := [],
          s3LatestCalled := s3Called, originCalled := true, refreshSched := [] }
      | .response st body =>
        if st < 200 ∨ 300 ≤ st then
          { value := emptyObjectBytes, error := none, redisSets := [], s3PutCalls := [],
            s3LatestCalled := s3Called, originCalled := true, refreshSched := [] }
        else if body.length = 0 then
          { value := emptyObjectBytes, error := none, redisSets := [], s3PutCalls := [],
            s3LatestCalled := s3Called, originCalled := true, refreshSched := [] }
        else
          { value := body, error := none,
            redisSets := [(redisKey, body),
                          (fetchedAtKey, utf8Bytes (toString (unixSeconds env.nowOrigin)))],
            s3PutCalls := if env.s3Enabled then [(appID, lang ++ "_" ++ mode, body)] else [],
            s3LatestCalled := s3Called, originCalled := true, refreshSched := [] }
  match env.redis1 with
  | .hit b =>
    let sched : List String :=
      match env.fetchedAtRaw with
      | some tsRaw =>
        match parseUnixSeconds tsRaw with
        | (t, true) =>
          if shouldRefresh env.nowHit t then [scheduleRefreshBestEffort redisKey] else []
        | (_, false) => []
      | none => []
    { value := b, error := none, redisSets := [], s3PutCalls := [],
      s3LatestCalled := false, originCalled := false, refreshSched := sched }
  | _ =>
    match env.redis2 with
    | .hit bb =>
      { value := bb, error := none, redisSets := [], s3PutCalls := [],
        s3LatestCalled := false, originCalled := false, refreshSched := [] }
    | _ =>
      if env.s3Enabled then
        match env.s3Latest with
        | .ok fallback =>
          if fallback.length > 0 then
            let sched : List String :=
              match env.s3CreatedAt with
              | some createdAt =>
                if shouldRefresh env.nowS3 createdAt then [scheduleRefreshBestEffort redisKey]
                else []
              | none => []
            { value := fallback, error := none,
              redisSets := [(redisKey, fallback),
                            (fetchedAtKey, utf8Bytes (toString (unixSeconds env.nowS3)))],
              s3PutCalls := [], s3LatestCalled := true, originCalled := false,
              refreshSched := sched }
          else
            { originLeg true with s3LatestCalled := true }
        | .error _ =>
          { originLeg true with s3LatestCalled := true }
      else
        originLeg false

/-- Conditions under which every tier of one lookup fails to produce data:
both Redis reads are non-hits, the durable tier is disabled, in error, or
holds an empty payload, and the origin is skipped (empty app key) or
yields no data. -/
def allTiersFail (appID : String) (env : Env) : Bool :=
  !env.redis1.isHit && !env.redis2.isHit &&
    (!env.s3Enabled ||
      (match env.s3Latest with
       | .error _ => true
       | .ok fb => fb.isEmpty)) &&
    (appID == "" || originNoData env.origin)

end MainGo

namespace SingleApp

/-!
The single-app service of cache.go: the lookup takes a force flag that
skips the Redis and S3 short-circuits, there is no staleness monitor, and
the HTTP layer negotiates the language. The per-call environment and the
result record play the same roles as in the MainGo model.
-/

/-- External-world answers observed during one single-app lookup. -/
structure SEnv where
  /-- First rdb.Get of the value key (consulted only when not forced). -/
  redis1 : RedisRead
  /-- Second rdb.Get of the value key, inside the fill (only when not forced). -/
  redis2 : RedisRead
  /-- Whether the durable tier is configured. -/
  s3Enabled : Bool
  /-- Latest-object download outcome. -/
  s3Latest : Except Unit Bytes
  /-- Clock taken in the S3-fallback branch. -/
  nowS3 : Int
  /-- Tolgee call outcome. -/
  origin : OriginResp
  /-- Clock taken in the origin branch. -/
  nowOrigin : Int

/-- Everything one single-app lookup returns and does. -/
structure SGetResult where
  /-- The payload returned to the caller. -/
  value : Bytes
  /-- The Go error returned to the caller. -/
  error : Option String
  /-- rdb.Set calls in order: key and stored bytes. -/
  redisSets : List (String × Bytes)
  /-- Versioned-plus-latest put calls: app (and lang for translations), payload. -/
  s3PutCalls : List (String × String × Bytes)
  /-- Whether the latest object was requested from S3. -/
  s3LatestCalled : Bool
  /-- Whether the Tolgee request was issued. -/
  originCalled : Bool
  /-- The coalescer key under which the fill ran. -/
  sfKey : String
deriving DecidableEq

/-- Request timeout, in seconds, configured on the resty client for the
Tolgee calls of the single-app service: cache.go builds the client with
SetTimeout(0), and resty treats a zero timeout as no timeout at all. -/
def tolgeeTimeoutSecondsSingleApp : Nat := 0

/-- Request timeout, in seconds, configured on the resty client for the
Tolgee calls of the multi-app service: main.go builds the client with
SetTimeout(10 * time.Second). -/
def tolgeeTimeoutSecondsMainGo : Nat := 10

/-- Model of getTranslationsCached from cache.go (single-app variant):
unless forced, Redis first, then inside the coalescer a second Redis check
and the S3 latest fallback with write-back; then the Tolgee origin with
write-back to Redis and, when the durable tier is enabled, a new version
plus latest-pointer write; every failure path returns the empty-object
sentinel with a nil error. The coalescer key is the Redis value key. -/
def getTranslationsCached (appID lang : String) (nested force : Bool) (env : SEnv) :
    SGetResult :=
  let mode := if nested then "nested" else "flat"
  let redisKey := "translations:" ++ appID ++ ":" ++ lang ++ ":" ++ mode
  let fetchedAtKey := redisKey ++ redisFetchedAtSuffix
  let originLeg : Bool → SGetResult := fun s3Called =>
    if appID = "" then
      { value := emptyObjectBytes, error := none, redisSets := [], s3PutCalls := [],
        s3LatestCalled := s3Called, originCalled := false, sfKey := redisKey }
    else
      match env.origin with
      | .transportError =>
        { value := emptyObjectBytes, error := none, redisSets := [], s3PutCalls := [],
          s3LatestCalled := s3Called, originCalled := true, sfKey := redisKey }
      | .response st body =>
        if st < 200 ∨ 300 ≤ st then
          { value := emptyObjectBytes, error := none, redisSets := [], s3PutCalls := [],
            s3LatestCalled := s3Called, originCalled := true, sfKey := redisKey }
        else if body.length = 0 then
          { value := emptyObjectBytes, error := none, redisSets := [], s3PutCalls := [],
            s3LatestCalled := s3Called, originCalled := true, sfKey := redisKey }
        else
          { value := body, error := none,
            redisSets := [(redisKey, body),
                          (fetchedAtKey, utf8Bytes (toString (unixSeconds env.nowOrigin)))],
            s3PutCalls := if env.s3Enabled then [(appID, lang ++ "_" ++ mode, body)] else [],
            s3LatestCalled := s3Called, originCalled := true, sfKey := redisKey }
  let fill : SGetResult :=
    if force then
      originLeg false
    else
      match env.redis2 with
      | .hit bb =>
        { value := bb, error := none, redisSets := [], s3PutCalls := [],
          s3LatestCalled := false, originCalled := false, sfKey := redisKey }
      | _ =>
        if env.s3Enabled then
          match env.s3Latest with
          | .ok fallback =>
            if fallback.length > 0 then
              { value := fallback, error := none,
                redisSets := [(redisKey, fallback),
                              (fetchedAtKey, utf8Bytes (toString (unixSeconds env.nowS3)))],
                s3PutCalls := [], s3LatestCalled := true, originCalled := false,
                sfKey := redisKey }
            else
              { originLeg true with s3LatestCalled := true }
          | .error _ =>
            { originLeg true with s3LatestCalled := true }
        else
          originLeg false
  if force then fill
  else
    match env.redis1 with
    | .hit b =>
      { value := b, error := none, redisSets := [], s3PutCalls := [],
        s3LatestCalled := false, originCalled := false, sfKey := redisKey }
    | _ => fill

/-- Model of getLanguagesCached from cache.go (single-app variant): same
tier chain over the languages keys; a forced call runs its fill under the
separate coalescer key with the force suffix. -/
def getLanguagesCached (appID : String) (force : Bool) (env : SEnv) : SGetResult :=
  let redisKey := "languages:" ++ appID
  let fetchedAtKey := redisKey ++ redisFetchedAtSuffix
  let callKey := if force then redisKey ++ ":force" else redisKey
  let originLeg : Bool → SGetResult := fun s3Called =>
    if appID = "" then
      { value := emptyObjectBytes, error := none, redisSets := [], s3PutCalls := [],
        s3LatestCalled := s3Called, originCalled := false, sfKey := callKey }
    else
      match env.origin with
      | .transportError =>
        { value := emptyObjectBytes, error := none, redisSets := [], s3PutCalls := [],
          s3LatestCalled := s3Called, originCalled := true, sfKey := callKey }
      | .response st body =>
        if st < 200 ∨ 300 ≤ st then
          { value := emptyObjectBytes, error := none, redisSets := [], s3PutCalls := [],
            s3LatestCalled := s3Called, originCalled := true, sfKey := callKey }
        else if body.length = 0 then
          { value := emptyObjectBytes, error := none, redisSets := [], s3PutCalls := [],
            s3LatestCalled := s3Called, originCalled := true, sfKey := callKey }
        else
          { value := body, error := none,
            redisSets := [(redisKey, body),
                          (fetchedAtKey, utf8Bytes (toString (unixSeconds env.nowOrigin)))],
            s3PutCalls := if env.s3Enabled then [(appID, "", body)] else [],
            s3LatestCalled := s3Called, originCalled := true, sfKey := callKey }
  let fill : SGetResult :=
    if force then
      originLeg false
    else
      match env.redis2 with
      | .hit bb =>
        { value := bb, error := none, redisSets := [], s3PutCalls := [],
          s3LatestCalled := false, originCalled := false, sfKey := callKey }
      | _ =>
        if env.s3Enabled then
          match env.s3Latest with
          | .ok fallback =>
            if fallback.length > 0 then
              { value := fallback, error := none,
                redisSets := [(redisKey, fallback),
                              (fetchedAtKey, utf8Bytes (toString (unixSeconds env.nowS3)))],
                s3PutCalls := [], s3LatestCalled := true, originCalled := false,
                sfKey := callKey }
            else
              { originLeg true with s3LatestCalled := true }
          | .error _ =>
            { originLeg true with s3LatestCalled := true }
        else
          originLeg false
  if force then fill
  else
    match env.redis1 with
    | .hit b =>
      { value := b, error := none, redisSets := [], s3PutCalls := [],
        s3LatestCalled := false, originCalled := false, sfKey := callKey }
    | _ => fill

end SingleApp

/-!
JSON values and the decoding shapes the single-app service relies on. The
byte-level text parsing belongs to the goccy/go-json library; the models
below take the parsed JSON value (an Option, none standing for bytes that
are not valid JSON) and reproduce how Go unmarshalling maps it onto the
declared Go types.
-/

-- Decidable equality for Except, needed to evaluate model results.
deriving instance DecidableEq for Except

/-- A parsed JSON value. -/
inductive JValue where
  | jnull
  | jbool (b : Bool)
  | jnum (n : Int)
  | jstr (s : String)
  | jarr (elems : List JValue)
  | jobj (fields : List (String × JValue))

/-- Look up an object field; with duplicate keys the last wins, as in Go. -/
def jlookup (fields : List (String × JValue)) (key : String) : Option JValue :=
  ((fields.reverse).find? (fun kv => kv.1 == key)).map (fun kv => kv.2)

/-- The tolgeeLanguage record: only the tag field is declared. -/
structure TolgeeLanguageRec where
  tag : String
deriving DecidableEq

/-- Go unmarshalling of one JSON value into a tolgeeLanguage struct:
objects take their string tag field (missing or null leaves the zero
value), null leaves the zero value, everything else is a type error. -/
def unmarshalTolgeeLanguage : JValue → Except Unit TolgeeLanguageRec
  | .jnull => .ok { tag := "" }
  | .jobj fields =>
    match jlookup fields "tag" with
    | none => .ok { tag := "" }
    | some .jnull => .ok { tag := "" }
    | some (.jstr s) => .ok { tag := s }
    | some _ => .error ()
  | _ => .error ()

/-- Go unmarshalling of a JSON value into a slice of tolgeeLanguage:
null gives the nil slice, an array decodes element-wise, and any other
top-level value — in particular the hypermedia envelope object the
provider actually returns — is a type error. -/
def unmarshalTolgeeLanguages : JValue → Except Unit (List TolgeeLanguageRec)
  | .jnull => .ok []
  | .jarr xs => xs.mapM unmarshalTolgeeLanguage
  | _ => .error ()

/-- Go unmarshalling of the languages collection reached through a field of
the envelope: absent or null fields leave nil slices. -/
def unmarshalLanguagesField (v : Option JValue) : Except Unit (List TolgeeLanguageRec) :=
  match v with
  | none => .ok []
  | some w => unmarshalTolgeeLanguages w

/-- The tolgeeLanguagesEnvelope struct: the embedded collection and the
direct collection. -/
structure TolgeeLanguagesEnvelope where
  embeddedLanguages : List TolgeeLanguageRec
  languages : List TolgeeLanguageRec
deriving DecidableEq

/-- Go unmarshalling of a JSON value into tolgeeLanguagesEnvelope. -/
def unmarshalEnvelope : JValue → Except Unit TolgeeLanguagesEnvelope
  | .jnull => .ok { embeddedLanguages := [], languages := [] }
  | .jobj fields => do
    let emb ←
      match jlookup fields "_embedded" with
      | none => Except.ok []
      | some .jnull => Except.ok []
      | some (.jobj efields) => unmarshalLanguagesField (jlookup efields "languages")
      | some _ => Except.error ()
    let direct ← unmarshalLanguagesField (jlookup fields "languages")
    Except.ok { embeddedLanguages := emb, languages := direct }
  | _ => .error ()

/-- Model of normalizeLang: trim and lowercase (ASCII, which covers every
language tag this system sees). -/
def normalizeLang (tag : String) : String :=
  String.mk ((goTrimSpace tag).toList.map Char.toLower)

/-- Normalized non-empty tags of a language record list, in order, as the
collection loops of availableLanguagesFromPayload produce them. -/
def tagsOf (ls : List TolgeeLanguageRec) : List String :=
  (ls.map (fun l => normalizeLang l.tag)).filter (fun t => ¬ t = "")

/-- Model of availableLanguagesFromPayload: try the direct-array format
first and use it when it decodes to a non-empty list; otherwise try the
envelope, preferring its direct collection and falling back to the
embedded one. The argument is the parsed JSON of the payload; none stands
for empty or unparseable bytes, on which every decode fails and the
result is empty. -/
def availableLanguagesFromPayload (parsed : Option JValue) : List String :=
  match parsed with
  | none => []
  | some j =>
    match unmarshalTolgeeLanguages j with
    | .ok direct =>
      if direct.length > 0 then tagsOf direct
      else
        match unmarshalEnvelope j with
        | .ok env => tagsOf (if env.languages.length = 0 then env.embeddedLanguages
                             else env.languages)
        | .error _ => []
    | .error _ =>
      match unmarshalEnvelope j with
      | .ok env => tagsOf (if env.languages.length = 0 then env.embeddedLanguages
                           else env.languages)
      | .error _ => []

/-- Model of parseAcceptLanguageHeader: split on commas, trim, take the
part before any quality parameters, normalize, and drop empties. -/
def parseAcceptLanguageHeader (header : String) : List String :=
  if header = "" then []
  else
    ((splitOnChar ',' header.toList).map (fun part =>
      let p := goTrimSpace (String.mk part)
      if p = "" then none
      else
        let lang := normalizeLang (String.mk ((splitOnChar ';' p.toList).headD []))
        if lang = "" then none else some lang)).filterMap id

/-- Model of pickLanguage: the first preferred tag (normalized) present in
the normalized available set, trying the part before a dash when the full
tag is absent; empty string when nothing matches or nothing is available. -/
def pickLanguage (preferred available : List String) : String :=
  if available.length = 0 then ""
  else
    let availSet := available.map normalizeLang
    match preferred.findSome? (fun p0 =>
      let p := normalizeLang p0
      if p = "" then none
      else if availSet.contains p then some p
      else
        match p.toList.findIdx? (fun c => c = '-') with
        | some idx =>
          if 0 < idx then
            let base := String.mk (p.toList.take idx)
            if availSet.contains base then some base else none
          else none
        | none => none) with
    | some r => r
    | none => ""

/-- Model of containsLang: normalized membership. -/
def containsLang (available : List String) (lang : String) : Bool :=
  let l := normalizeLang lang
  available.any (fun a => normalizeLang a == l)

/-!
Webhook signature verification (cache.go verifyTolgeeSignature). The raw
header string together with its JSON decoding is modelled by the
HeaderInput type: the empty raw header, a non-empty header that fails to
decode, or the decoded timestamp and signature fields (a missing field
decodes to its zero value, which the parsed constructor covers with a zero
timestamp or an empty signature).
-/

/-- The Tolgee-Signature header as the verifier observes it. -/
inductive HeaderInput where
  | empty
  | malformed
  | parsed (timestamp : Int) (signature : String)
deriving DecidableEq

/-- Five minutes in milliseconds, the replay window of the verifier. -/
def fiveMinutesMs : Int := 5 * 60 * 1000

/-- The byte sequence that gets signed: the decimal timestamp, a dot
(byte 46), then the raw body bytes. -/
def signedPayload (ts : Int) (body : Bytes) : Bytes :=
  utf8Bytes (toString ts) ++ [46] ++ body

/-- The hex signature the verifier expects for a timestamp and body under a
secret. -/
def expectedSignature (secret : String) (ts : Int) (body : Bytes) : String :=
  hexLower (hmacSha256 (utf8Bytes secret) (signedPayload ts body))

/-- Model of verifyTolgeeSignature: reject on empty secret or header, on a
decode failure, on a non-positive timestamp or empty signature, on a
signature different from the lowercase hex HMAC-SHA256 of the signed
payload (the constant-time comparison of Go hmac.Equal on the two byte
strings coincides with string equality), and on a timestamp more than five
minutes older than the verification clock. -/
def verifyTolgeeSignature (nowMs : Int) (secret : String) (rawHeader : HeaderInput)
    (body : Bytes) : Bool :=
  if secret = "" ∨ rawHeader = HeaderInput.empty then false
  else
    match rawHeader with
    | .empty => false
    | .malformed => false
    | .parsed ts sig =>
      if ts ≤ 0 ∨ sig = "" then false
      else if ¬ (expectedSignature secret ts body = sig) then false
      else if ts < nowMs - fiveMinutesMs then false
      else true

namespace SingleApp

/-!
The webhook-triggered rebuild and the HTTP handlers of the single-app
service.
-/

/-- One entry of the rebuild summary's failure list. The Go code stores
formatted message strings; the model keeps their discriminating shape. -/
inductive FailureMsg where
  | languagesFetch
  | languagesDecode
  | transFlat (tag : String)
  | transNested (tag : String)
deriving DecidableEq

/-- The updateSummary record returned by a rebuild. -/
structure UpdateSummary where
  app : String
  languages : List String
  refreshed : Nat
  failures : List FailureMsg
  startedAt : String
  finishedAt : String
deriving DecidableEq

/-- External-world answers observed during one full rebuild. -/
structure RefreshEnv where
  /-- Tier answers for the languages lookup. -/
  langsEnv : SEnv
  /-- The JSON parse of the languages payload that lookup returned; none
  stands for bytes that are not valid JSON. -/
  langsParsed : Option JValue
  /-- Tier answers for each per-language, per-mode translations lookup. -/
  transEnv : String → Bool → SEnv
  /-- Formatted start clock. -/
  startedAt : String
  /-- Formatted finish clock. -/
  finishedAt : String

/-- Model of refreshAppTranslations: fetch the languages (forced or not per
the flag), decode them as a bare array of tag records, and for each
language with a non-blank tag refresh the flat and the nested translations
(forced), counting successes and recording per-language failures; a
language's failure does not stop the loop. -/
def refreshAppTranslations (appID : String) (force : Bool) (env : RefreshEnv) :
    UpdateSummary :=
  let summary0 : UpdateSummary :=
    { app := appID, languages := [], refreshed := 0, failures := [],
      startedAt := env.startedAt, finishedAt := "" }
  let langsRes := getLanguagesCached appID force env.langsEnv
  match langsRes.error with
  | some _ =>
    { summary0 with failures := [FailureMsg.languagesFetch], finishedAt := env.finishedAt }
  | none =>
    let decoded : Except Unit (List TolgeeLanguageRec) :=
      match env.langsParsed with
      | none => .error ()
      | some j => unmarshalTolgeeLanguages j
    match decoded with
    | .error _ =>
      { summary0 with failures := [FailureMsg.languagesDecode], finishedAt := env.finishedAt }
    | .ok langs =>
      let looped := langs.foldl (fun acc l =>
        if goTrimSpace l.tag = "" then acc
        else
          let acc1 := { acc with languages := acc.languages ++ [l.tag] }
          let rFlat := getTranslationsCached appID l.tag false true (env.transEnv l.tag false)
          let acc2 :=
            match rFlat.error with
            | some _ => { acc1 with failures := acc1.failures ++ [FailureMsg.transFlat l.tag] }
            | none => { acc1 with refreshed := acc1.refreshed + 1 }
          let rNested := getTranslationsCached appID l.tag true true (env.transEnv l.tag true)
          match rNested.error with
          | some _ => { acc2 with failures := acc2.failures ++ [FailureMsg.transNested l.tag] }
          | none => { acc2 with refreshed := acc2.refreshed + 1 }) summary0
      { looped with finishedAt := env.finishedAt }

/-- External inputs of one webhook request to the update handler. -/
structure UpdateHandlerEnv where
  /-- The configured webhook secret. -/
  secret : String
  /-- The Tolgee-Signature header as observed. -/
  header : HeaderInput
  /-- The raw request body bytes. -/
  body : Bytes
  /-- The verification clock in unix milliseconds. -/
  nowMs : Int
  /-- External answers for the rebuild the handler triggers. -/
  refreshEnv : RefreshEnv

/-- Model of makeUpdateHandler: status 401 with no summary on a signature
rejection, otherwise status 200 with the summary of a forced synchronous
rebuild. -/
def makeUpdateHandler (appKey : String) (env : UpdateHandlerEnv) :
    Nat × Option UpdateSummary :=
  if verifyTolgeeSignature env.nowMs env.secret env.header env.body then
    (200, some (refreshAppTranslations appKey true env.refreshEnv))
  else
    (401, none)

/-- External inputs of one request to the translations handler. -/
structure TransHandlerEnv where
  /-- The path language parameter. -/
  langParam : String
  /-- The raw nested query value, with its default already applied by the
  framework (c.Query with default false). -/
  nestedRaw : String
  /-- The Accept-Language request header. -/
  acceptLanguage : String
  /-- The available language tags, as availableLanguagesFromPayload
  extracts them from the languages payload the handler fetches first. -/
  available : List String
  /-- Tier answers for each translations lookup the handler may issue. -/
  transEnv : String → Bool → SEnv

/-- An HTTP response of the translations handler. -/
structure HandlerResult where
  status : Nat
  body : Bytes
  contentLanguage : String
deriving DecidableEq

/-- Model of makeTranslationsHandler: normalize the requested tag, parse
the nested flag, infer a target from Accept-Language when the path gives
none, fall back through pickLanguage and the fixed default, look the
translations up, retry with the default language when the payload is
missing or empty, and always answer with status 200. The nil-slice
replacement of the Go code is not reachable, because every return of the
lookup is a non-nil slice, so the model's body is the lookup's value. -/
def makeTranslationsHandler (appKey : String) (env : TransHandlerEnv) : HandlerResult :=
  let requested := normalizeLang env.langParam
  let nested :=
    if env.nestedRaw ≠ "" then
      match goParseBool env.nestedRaw with
      | some b => b
      | none => false
    else false
  let available := env.available
  let preferred := parseAcceptLanguageHeader env.acceptLanguage
  let target0 := requested
  let target1 := if target0 = "" then pickLanguage preferred available else target0
  let target2 :=
    if target1 = "" ∨ ¬ containsLang available target1 then
      let fallback := pickLanguage preferred available
      if fallback = "" then "en" else fallback
    else target1
  let r1 := getTranslationsCached appKey target2 nested false (env.transEnv target2 nested)
  let second : Bytes × String :=
    if (r1.error ≠ none ∨ r1.value.length = 0) ∧ target2 ≠ "en" then
      ((getTranslationsCached appKey "en" nested false (env.transEnv "en" nested)).value, "en")
    else
      (r1.value, target2)
  { status := 200, body := second.1, contentLanguage := second.2 }

end SingleApp

/-!
Theorems. Shared helper lemmas come first, then one theorem per claim with
its witness or counterexample.
-/

/-- A SHA-256 digest is never the empty byte sequence. -/
theorem sha256_ne_nil (msg : Bytes) : sha256 msg ≠ [] := by
  simp [sha256, digestBytes, be32]

/-- An HMAC-SHA256 digest is never the empty byte sequence. -/
theorem hmacSha256_ne_nil (key msg : Bytes) : hmacSha256 key msg ≠ [] := by
  unfold hmacSha256
  exact sha256_ne_nil _

/-- The hex encoding of a non-empty byte sequence is a non-empty string. -/
theorem hexLower_ne_empty {bs : Bytes} (h : bs ≠ []) : hexLower bs ≠ "" := by
  cases bs with
  | nil => exact absurd rfl h
  | cons b t =>
    intro hcontra
    have hlen := congrArg String.length hcontra
    simp [hexLower, String.length] at hlen

/-- The expected signature string is never empty. -/
theorem expectedSignature_ne_empty (secret : String) (ts : Int) (body : Bytes) :
    expectedSignature secret ts body ≠ "" :=
  hexLower_ne_empty (hmacSha256_ne_nil _ _)

/-- Acceptance characterization of the verifier on a decoded header. -/
theorem verify_parsed_iff (nowMs : Int) (secret : String) (ts : Int) (sig : String)
    (body : Bytes) :
    verifyTolgeeSignature nowMs secret (HeaderInput.parsed ts sig) body = true ↔
      (secret ≠ "" ∧ 0 < ts ∧ sig ≠ "" ∧ sig = expectedSignature secret ts body ∧
        nowMs - fiveMinutesMs ≤ ts) := by
  have hred : verifyTolgeeSignature nowMs secret (HeaderInput.parsed ts sig) body =
      (if secret = "" ∨ (HeaderInput.parsed ts sig) = HeaderInput.empty then false
       else if ts ≤ 0 ∨ sig = "" then false
       else if ¬ expectedSignature secret ts body = sig then false
       else if ts < nowMs - fiveMinutesMs then false
       else true) := rfl
  rw [hred]
  constructor
  · intro h
    by_cases hsec : secret = ""
    · simp [hsec] at h
    · by_cases hts : ts ≤ 0
      · simp [hsec, hts] at h
      · by_cases hsig : sig = ""
        · simp [hsec, hsig] at h
        · by_cases hexp : expectedSignature secret ts body = sig
          · by_cases hwin : ts < nowMs - fiveMinutesMs
            · simp [hsec, hts, hsig, hexp, hwin] at h
            · exact ⟨hsec, by omega, hsig, hexp.symm, by omega⟩
          · simp [hsec, hts, hsig, hexp] at h
  · rintro ⟨hsec, hts, hsig, hexp, hwin⟩
    rw [if_neg (by simp [hsec] :
          ¬ (secret = "" ∨ (HeaderInput.parsed ts sig) = HeaderInput.empty)),
        if_neg (by push_neg; exact ⟨by omega, hsig⟩ : ¬ (ts ≤ 0 ∨ sig = "")),
        if_neg (not_not.mpr hexp.symm),
        if_neg (by omega : ¬ ts < nowMs - fiveMinutesMs)]


/-- C3: verifyTolgeeSignature returns true if and only if the secret and the
header are non-empty, the header decodes to a positive timestamp and a
non-empty signature string, the signature equals the lowercase hex encoding
of HMAC-SHA256 of the dot-joined decimal timestamp and raw body under the
secret, and the timestamp is not older than five minutes before the
verification clock; in particular a decoded header whose signature differs
from that expected value (as after any bit flip of signature, timestamp or
body that changes the MAC) is rejected, and a correctly signed timestamp
more than five minutes old is rejected. -/
theorem c3_signature_characterization (nowMs : Int) (secret : String)
    (hdr : HeaderInput) (body : Bytes) :
    (verifyTolgeeSignature nowMs secret hdr body = true ↔
      (secret ≠ "" ∧ ∃ ts sig, hdr = HeaderInput.parsed ts sig ∧ 0 < ts ∧ sig ≠ "" ∧
        sig = expectedSignature secret ts body ∧ nowMs - fiveMinutesMs ≤ ts)) ∧
    (∀ ts sig, hdr = HeaderInput.parsed ts sig →
      sig ≠ expectedSignature secret ts body →
      verifyTolgeeSignature nowMs secret hdr body = false) ∧
    (∀ ts sig, hdr = HeaderInput.parsed ts sig → ts < nowMs - fiveMinutesMs →
      verifyTolgeeSignature nowMs secret hdr body = false) := by
  refine ⟨?_, ?_, ?_⟩
  · cases hdr with
    | empty => simp [verifyTolgeeSignature]
    | malformed => simp [verifyTolgeeSignature]
    | parsed ts sig =>
      rw [verify_parsed_iff]
      constructor
      · rintro ⟨h1, h2, h3, h4, h5⟩
        exact ⟨h1, ts, sig, rfl, h2, h3, h4, h5⟩
      · rintro ⟨h1, ts2, sig2, heq, h2, h3, h4, h5⟩
        injection heq with hts hsig
        subst hts
        subst hsig
        exact ⟨h1, h2, h3, h4, h5⟩
  · intro ts2 sig2 heq hneq
    subst heq
    rcases Bool.eq_false_or_eq_true
        (verifyTolgeeSignature nowMs secret (HeaderInput.parsed ts2 sig2) body) with hv | hv
    · exact absurd ((verify_parsed_iff nowMs secret ts2 sig2 body).mp hv).2.2.2.1 hneq
    · exact hv
  · intro ts2 sig2 heq hlt
    subst heq
    rcases Bool.eq_false_or_eq_true
        (verifyTolgeeSignature nowMs secret (HeaderInput.parsed ts2 sig2) body) with hv | hv
    · have hwin := ((verify_parsed_iff nowMs secret ts2 sig2 body).mp hv).2.2.2.2
      omega
    · exact hv

/-- Witness for C3 at concrete inputs: the correctly signed header for
secret s3cr3t, timestamp 1000000 and a seven-byte JSON body is accepted;
the same header with the last signature bit flipped is rejected; the same
correctly signed header checked more than five minutes later is rejected. -/
theorem c3_signature_characterization_witness :
    verifyTolgeeSignature 1000000 "s3cr3t"
      (HeaderInput.parsed 1000000
        "5019c5179fa092b525accb38e3f32964ae8928a71b005c594b0199af45c046c0")
      [123, 34, 97, 34, 58, 49, 125] = true ∧
    verifyTolgeeSignature 1000000 "s3cr3t"
      (HeaderInput.parsed 1000000
        "5019c5179fa092b525accb38e3f32964ae8928a71b005c594b0199af45c046c1")
      [123, 34, 97, 34, 58, 49, 125] = false ∧
    verifyTolgeeSignature 1300001 "s3cr3t"
      (HeaderInput.parsed 1000000
        "5019c5179fa092b525accb38e3f32964ae8928a71b005c594b0199af45c046c0")
      [123, 34, 97, 34, 58, 49, 125] = false := by
  refine ⟨?_, ?_, ?_⟩
  · exact (c3_signature_characterization 1000000 "s3cr3t" _ _).1.mpr
      ⟨by decide, 1000000, _, rfl, by decide, by decide, by decide, by decide⟩
  · exact (c3_signature_characterization 1000000 "s3cr3t" _ _).2.1 1000000 _ rfl (by decide)
  · exact (c3_signature_characterization 1300001 "s3cr3t" _ _).2.2 1000000 _ rfl (by decide)

/-- The bounded-window property claimed of the verifier: some fixed bound W
limits how far an accepted timestamp may lie from the verification clock in
either direction. -/
def boundedWindowClaim : Prop :=
  ∃ W : Nat, ∀ (nowMs : Int) (secret : String) (body : Bytes) (ts : Int) (sig : String),
    verifyTolgeeSignature nowMs secret (HeaderInput.parsed ts sig) body = true →
    ts - nowMs ≤ (W : Int) ∧ nowMs - ts ≤ (W : Int)

/-- C9 counterexample: no fixed bound limits accepted timestamps from above;
for every candidate bound W, the correctly signed timestamp W+1 checked at
verification clock 0 is accepted although it lies W+1 milliseconds in the
future. -/
theorem c9_bounded_window_counterexample : ¬ boundedWindowClaim := by
  rintro ⟨W, h⟩
  have hacc : verifyTolgeeSignature 0 "s3cr3t"
      (HeaderInput.parsed ((W : Int) + 1)
        (expectedSignature "s3cr3t" ((W : Int) + 1) [])) [] = true := by
    rw [verify_parsed_iff]
    refine ⟨by decide, by omega, expectedSignature_ne_empty _ _ _, rfl, ?_⟩
    simp only [fiveMinutesMs]
    omega
  have hb := (h 0 "s3cr3t" [] ((W : Int) + 1) _ hacc).1
  omega

/-- C9 amended: the verifier enforces only a lower time bound. For a
non-empty secret and a positive timestamp, a correctly signed header is
accepted exactly when the timestamp is at least five minutes before the
verification clock or later — in particular timestamps arbitrarily far in
the future are accepted. -/
theorem c9_bounded_window_amended (nowMs : Int) (secret : String) (ts : Int) (body : Bytes)
    (hsec : secret ≠ "") (hts : 0 < ts) :
    verifyTolgeeSignature nowMs secret
        (HeaderInput.parsed ts (expectedSignature secret ts body)) body = true ↔
      nowMs - fiveMinutesMs ≤ ts := by
  rw [verify_parsed_iff]
  constructor
  · rintro ⟨_, _, _, _, h⟩
    exact h
  · intro h
    exact ⟨hsec, hts, expectedSignature_ne_empty _ _ _, rfl, h⟩

/-- Witness for the amended C9 at concrete inputs. -/
theorem c9_bounded_window_amended_witness :
    ("s3cr3t" : String) ≠ "" ∧ (0 : Int) < 37 ∧
    (verifyTolgeeSignature 0 "s3cr3t"
        (HeaderInput.parsed 37 (expectedSignature "s3cr3t" 37 [])) [] = true ↔
      (0 : Int) - fiveMinutesMs ≤ 37) :=
  ⟨by decide, by decide, c9_bounded_window_amended 0 "s3cr3t" 37 [] (by decide) (by decide)⟩

/-- C10: the comparison is exact byte equality against the lowercase hex
encoding of the computed MAC, so any signature spelling other than that
lowercase encoding is rejected; in particular the uppercase-hex spelling of
the correct MAC is rejected whenever it differs from the lowercase one,
that is, whenever the digest contains a hex letter. -/
theorem c10_lowercase_only (nowMs : Int) (secret : String) (ts : Int) (body : Bytes) :
    (∀ sig, sig ≠ expectedSignature secret ts body →
      verifyTolgeeSignature nowMs secret (HeaderInput.parsed ts sig) body = false) ∧
    (hexUpper (hmacSha256 (utf8Bytes secret) (signedPayload ts body)) ≠
        expectedSignature secret ts body →
      verifyTolgeeSignature nowMs secret
        (HeaderInput.parsed ts
          (hexUpper (hmacSha256 (utf8Bytes secret) (signedPayload ts body)))) body = false) := by
  have main : ∀ sig, sig ≠ expectedSignature secret ts body →
      verifyTolgeeSignature nowMs secret (HeaderInput.parsed ts sig) body = false := by
    intro sig hneq
    rcases Bool.eq_false_or_eq_true
        (verifyTolgeeSignature nowMs secret (HeaderInput.parsed ts sig) body) with hv | hv
    · exact absurd ((verify_parsed_iff nowMs secret ts sig body).mp hv).2.2.2.1 hneq
    · exact hv
  exact ⟨main, fun hneq => main _ hneq⟩

/-- Witness for C10 at concrete inputs: the uppercase spelling of the
correct MAC for secret s3cr3t, timestamp 1000000 and an empty body differs
from the lowercase spelling, and the verifier rejects it. -/
theorem c10_lowercase_only_witness :
    hexUpper (hmacSha256 (utf8Bytes "s3cr3t") (signedPayload 1000000 [])) ≠
      expectedSignature "s3cr3t" 1000000 [] ∧
    verifyTolgeeSignature 1000000 "s3cr3t"
      (HeaderInput.parsed 1000000
        (hexUpper (hmacSha256 (utf8Bytes "s3cr3t") (signedPayload 1000000 [])))) [] = false :=
  ⟨by decide, (c10_lowercase_only 1000000 "s3cr3t" 1000000 []).2 (by decide)⟩


/-- C1: a non-forced lookup consults the tiers in the fixed order Redis,
then durable-store latest object, then origin; the first tier producing
non-empty payload bytes determines the returned value; an S3 hit is written
back to Redis together with its fetched-at sidecar; an origin hit is
written back to Redis and, when the durable tier is enabled, stored as a
new versioned object plus updated latest pointer; and no deeper tier is
contacted once a shallower tier has produced non-empty bytes. -/
theorem c1_tiered_lookup_order (appID lang : String) (nested : Bool) (env : MainGo.Env) :
    (∀ b, env.redis1 = RedisRead.hit b → b ≠ [] →
      (MainGo.getTranslationsCached appID lang nested env).value = b ∧
      (MainGo.getTranslationsCached appID lang nested env).s3LatestCalled = false ∧
      (MainGo.getTranslationsCached appID lang nested env).originCalled = false ∧
      (MainGo.getTranslationsCached appID lang nested env).redisSets = [] ∧
      (MainGo.getTranslationsCached appID lang nested env).s3PutCalls = []) ∧
    (∀ b, env.redis1.isHit = false → env.redis2 = RedisRead.hit b → b ≠ [] →
      (MainGo.getTranslationsCached appID lang nested env).value = b ∧
      (MainGo.getTranslationsCached appID lang nested env).s3LatestCalled = false ∧
      (MainGo.getTranslationsCached appID lang nested env).originCalled = false ∧
      (MainGo.getTranslationsCached appID lang nested env).redisSets = [] ∧
      (MainGo.getTranslationsCached appID lang nested env).s3PutCalls = []) ∧
    (∀ fb, env.redis1.isHit = false → env.redis2.isHit = false → env.s3Enabled = true →
      env.s3Latest = Except.ok fb → fb ≠ [] →
      (MainGo.getTranslationsCached appID lang nested env).value = fb ∧
      (MainGo.getTranslationsCached appID lang nested env).originCalled = false ∧
      (MainGo.getTranslationsCached appID lang nested env).s3LatestCalled = true ∧
      (MainGo.getTranslationsCached appID lang nested env).redisSets =
        [("translations:" ++ appID ++ ":" ++ lang ++ ":" ++
            (if nested then "nested" else "flat"), fb),
         ("translations:" ++ appID ++ ":" ++ lang ++ ":" ++
            (if nested then "nested" else "flat") ++ redisFetchedAtSuffix,
          utf8Bytes (toString (unixSeconds env.nowS3)))] ∧
      (MainGo.getTranslationsCached appID lang nested env).s3PutCalls = []) ∧
    (∀ st body, env.redis1.isHit = false → env.redis2.isHit = false →
      (env.s3Enabled = false ∨ env.s3Latest = Except.error () ∨
        env.s3Latest = Except.ok []) →
      appID ≠ "" → env.origin = OriginResp.response st body → 200 ≤ st → st < 300 →
      body ≠ [] →
      (MainGo.getTranslationsCached appID lang nested env).value = body ∧
      (MainGo.getTranslationsCached appID lang nested env).originCalled = true ∧
      (MainGo.getTranslationsCached appID lang nested env).redisSets =
        [("translations:" ++ appID ++ ":" ++ lang ++ ":" ++
            (if nested then "nested" else "flat"), body),
         ("translations:" ++ appID ++ ":" ++ lang ++ ":" ++
            (if nested then "nested" else "flat") ++ redisFetchedAtSuffix,
          utf8Bytes (toString (unixSeconds env.nowOrigin)))] ∧
      (MainGo.getTranslationsCached appID lang nested env).s3PutCalls =
        (if env.s3Enabled then
          [(appID, lang ++ "_" ++ (if nested then "nested" else "flat"), body)]
         else [])) := by
  rcases env with ⟨r1, fraw, nh, r2, s3e, s3l, ns3, sca, org, no⟩
  refine ⟨?_, ?_, ?_, ?_⟩
  · intro b hb hne
    subst hb
    simp [MainGo.getTranslationsCached]
  · intro b h1 h2 hne
    subst h2
    cases r1 with
    | hit b0 => simp [RedisRead.isHit] at h1
    | missNil => simp [MainGo.getTranslationsCached]
    | errOther => simp [MainGo.getTranslationsCached]
  · intro fb h1 h2 hs3 hlat hne
    subst hs3
    subst hlat
    have hfb : 0 < fb.length := List.length_pos.mpr hne
    cases r1 with
    | hit b0 => simp [RedisRead.isHit] at h1
    | missNil =>
      cases r2 with
      | hit b0 => simp [RedisRead.isHit] at h2
      | missNil => simp [MainGo.getTranslationsCached, hfb]
      | errOther => simp [MainGo.getTranslationsCached, hfb]
    | errOther =>
      cases r2 with
      | hit b0 => simp [RedisRead.isHit] at h2
      | missNil => simp [MainGo.getTranslationsCached, hfb]
      | errOther => simp [MainGo.getTranslationsCached, hfb]
  · intro st body h1 h2 hs3 happ horg hst1 hst2 hne
    subst horg
    have hstatus : ¬ (st < 200 ∨ 300 ≤ st) := by omega
    have hbody : ¬ (body.length = 0) := by
      simpa [List.length_eq_zero] using hne
    cases r1 with
    | hit b0 => simp [RedisRead.isHit] at h1
    | missNil =>
      cases r2 with
      | hit b0 => simp [RedisRead.isHit] at h2
      | missNil =>
        rcases hs3 with h | h | h
        · subst h
          simp [MainGo.getTranslationsCached, happ, hstatus, hbody]
        · subst h
          cases s3e <;> simp [MainGo.getTranslationsCached, happ, hstatus, hbody]
        · subst h
          cases s3e <;> simp [MainGo.getTranslationsCached, happ, hstatus, hbody]
      | errOther =>
        rcases hs3 with h | h | h
        · subst h
          simp [MainGo.getTranslationsCached, happ, hstatus, hbody]
        · subst h
          cases s3e <;> simp [MainGo.getTranslationsCached, happ, hstatus, hbody]
        · subst h
          cases s3e <;> simp [MainGo.getTranslationsCached, happ, hstatus, hbody]
    | errOther =>
      cases r2 with
      | hit b0 => simp [RedisRead.isHit] at h2
      | missNil =>
        rcases hs3 with h | h | h
        · subst h
          simp [MainGo.getTranslationsCached, happ, hstatus, hbody]
        · subst h
          cases s3e <;> simp [MainGo.getTranslationsCached, happ, hstatus, hbody]
        · subst h
          cases s3e <;> simp [MainGo.getTranslationsCached, happ, hstatus, hbody]
      | errOther =>
        rcases hs3 with h | h | h
        · subst h
          simp [MainGo.getTranslationsCached, happ, hstatus, hbody]
        · subst h
          cases s3e <;> simp [MainGo.getTranslationsCached, happ, hstatus, hbody]
        · subst h
          cases s3e <;> simp [MainGo.getTranslationsCached, happ, hstatus, hbody]


/-- Witness for C1: concrete lookups terminating at the Redis tier, the
second Redis check, the S3 fallback (with Redis write-back) and the origin
(with Redis write-back and version-plus-latest store), each obtained by
applying the tier-order theorem. -/
theorem c1_tiered_lookup_order_witness :
    ((MainGo.getTranslationsCached "app" "en" false
        { redis1 := RedisRead.hit [9], fetchedAtRaw := none, nowHit := 0,
          redis2 := RedisRead.missNil, s3Enabled := false, s3Latest := Except.error (),
          nowS3 := 0, s3CreatedAt := none, origin := OriginResp.transportError,
          nowOrigin := 0 }).value = [9] ∧
     (MainGo.getTranslationsCached "app" "en" false
        { redis1 := RedisRead.hit [9], fetchedAtRaw := none, nowHit := 0,
          redis2 := RedisRead.missNil, s3Enabled := false, s3Latest := Except.error (),
          nowS3 := 0, s3CreatedAt := none, origin := OriginResp.transportError,
          nowOrigin := 0 }).s3LatestCalled = false ∧
     (MainGo.getTranslationsCached "app" "en" false
        { redis1 := RedisRead.hit [9], fetchedAtRaw := none, nowHit := 0,
          redis2 := RedisRead.missNil, s3Enabled := false, s3Latest := Except.error (),
          nowS3 := 0, s3CreatedAt := none, origin := OriginResp.transportError,
          nowOrigin := 0 }).originCalled = false ∧
     (MainGo.getTranslationsCached "app" "en" false
        { redis1 := RedisRead.hit [9], fetchedAtRaw := none, nowHit := 0,
          redis2 := RedisRead.missNil, s3Enabled := false, s3Latest := Except.error (),
          nowS3 := 0, s3CreatedAt := none, origin := OriginResp.transportError,
          nowOrigin := 0 }).redisSets = [] ∧
     (MainGo.getTranslationsCached "app" "en" false
        { redis1 := RedisRead.hit [9], fetchedAtRaw := none, nowHit := 0,
          redis2 := RedisRead.missNil, s3Enabled := false, s3Latest := Except.error (),
          nowS3 := 0, s3CreatedAt := none, origin := OriginResp.transportError,
          nowOrigin := 0 }).s3PutCalls = []) ∧
    ((MainGo.getTranslationsCached "app" "en" false
        { redis1 := RedisRead.missNil, fetchedAtRaw := none, nowHit := 0,
          redis2 := RedisRead.errOther, s3Enabled := true,
          s3Latest := Except.ok [1, 2], nowS3 := 5 * nsPerSecond, s3CreatedAt := none,
          origin := OriginResp.transportError, nowOrigin := 0 }).value = [1, 2] ∧
     (MainGo.getTranslationsCached "app" "en" false
        { redis1 := RedisRead.missNil, fetchedAtRaw := none, nowHit := 0,
          redis2 := RedisRead.errOther, s3Enabled := true,
          s3Latest := Except.ok [1, 2], nowS3 := 5 * nsPerSecond, s3CreatedAt := none,
          origin := OriginResp.transportError, nowOrigin := 0 }).originCalled = false ∧
     (MainGo.getTranslationsCached "app" "en" false
        { redis1 := RedisRead.missNil, fetchedAtRaw := none, nowHit := 0,
          redis2 := RedisRead.errOther, s3Enabled := true,
          s3Latest := Except.ok [1, 2], nowS3 := 5 * nsPerSecond, s3CreatedAt := none,
          origin := OriginResp.transportError, nowOrigin := 0 }).s3LatestCalled = true ∧
     (MainGo.getTranslationsCached "app" "en" false
        { redis1 := RedisRead.missNil, fetchedAtRaw := none, nowHit := 0,
          redis2 := RedisRead.errOther, s3Enabled := true,
          s3Latest := Except.ok [1, 2], nowS3 := 5 * nsPerSecond, s3CreatedAt := none,
          origin := OriginResp.transportError, nowOrigin := 0 }).redisSets =
        [("translations:app:en:flat", [1, 2]),
         ("translations:app:en:flat:fetched_utc", [53])] ∧
     (MainGo.getTranslationsCached "app" "en" false
        { redis1 := RedisRead.missNil, fetchedAtRaw := none, nowHit := 0,
          redis2 := RedisRead.errOther, s3Enabled := true,
          s3Latest := Except.ok [1, 2], nowS3 := 5 * nsPerSecond, s3CreatedAt := none,
          origin := OriginResp.transportError, nowOrigin := 0 }).s3PutCalls = []) ∧
    ((MainGo.getTranslationsCached "app" "en" false
        { redis1 := RedisRead.errOther, fetchedAtRaw := none, nowHit := 0,
          redis2 := RedisRead.missNil, s3Enabled := true, s3Latest := Except.ok [],
          nowS3 := 0, s3CreatedAt := none, origin := OriginResp.response 200 [5],
          nowOrigin := 7 * nsPerSecond }).value = [5] ∧
     (MainGo.getTranslationsCached "app" "en" false
        { redis1 := RedisRead.errOther, fetchedAtRaw := none, nowHit := 0,
          redis2 := RedisRead.missNil, s3Enabled := true, s3Latest := Except.ok [],
          nowS3 := 0, s3CreatedAt := none, origin := OriginResp.response 200 [5],
          nowOrigin := 7 * nsPerSecond }).originCalled = true ∧
     (MainGo.getTranslationsCached "app" "en" false
        { redis1 := RedisRead.errOther, fetchedAtRaw := none, nowHit := 0,
          redis2 := RedisRead.missNil, s3Enabled := true, s3Latest := Except.ok [],
          nowS3 := 0, s3CreatedAt := none, origin := OriginResp.response 200 [5],
          nowOrigin := 7 * nsPerSecond }).redisSets =
        [("translations:app:en:flat", [5]),
         ("translations:app:en:flat:fetched_utc", [55])] ∧
     (MainGo.getTranslationsCached "app" "en" false
        { redis1 := RedisRead.errOther, fetchedAtRaw := none, nowHit := 0,
          redis2 := RedisRead.missNil, s3Enabled := true, s3Latest := Except.ok [],
          nowS3 := 0, s3CreatedAt := none, origin := OriginResp.response 200 [5],
          nowOrigin := 7 * nsPerSecond }).s3PutCalls = [("app", "en_flat", [5])]) := by
  refine ⟨?_, ?_, ?_⟩
  · exact (c1_tiered_lookup_order "app" "en" false _).1 [9] rfl (by decide)
  · exact (c1_tiered_lookup_order "app" "en" false _).2.2.1 [1, 2] (by decide) (by decide)
      rfl rfl (by decide)
  · exact (c1_tiered_lookup_order "app" "en" false _).2.2.2 200 [5] (by decide) (by decide)
      (Or.inr (Or.inr rfl)) (by decide) rfl (by decide) (by decide) (by decide)

/-- C2: the lookup never returns an error — every tier failure is absorbed
locally — and when every tier fails it returns exactly the two-byte
empty-object payload with a nil error; the single-app lookup likewise
never errors, and the translations HTTP handler always answers status
200. -/
theorem c2_error_absorption :
    (∀ (appID lang : String) (nested : Bool) (env : MainGo.Env),
      (MainGo.getTranslationsCached appID lang nested env).error = none) ∧
    (∀ (appID lang : String) (nested : Bool) (env : MainGo.Env),
      MainGo.allTiersFail appID env = true →
      (MainGo.getTranslationsCached appID lang nested env).value = emptyObjectBytes) ∧
    (∀ (appID lang : String) (nested force : Bool) (env : SingleApp.SEnv),
      (SingleApp.getTranslationsCached appID lang nested force env).error = none) ∧
    (∀ (appKey : String) (env : SingleApp.TransHandlerEnv),
      (SingleApp.makeTranslationsHandler appKey env).status = 200) := by
  refine ⟨?_, ?_, ?_, ?_⟩
  · intro appID lang nested env
    simp only [MainGo.getTranslationsCached]
    repeat' split
    all_goals rfl
  · intro appID lang nested env h
    rcases env with ⟨r1, fraw, nh, r2, s3e, s3l, ns3, sca, org, no⟩
    simp only [MainGo.allTiersFail, Bool.and_eq_true, Bool.or_eq_true,
      Bool.not_eq_true'] at h
    obtain ⟨⟨⟨hr1, hr2⟩, hs3⟩, horg⟩ := h
    cases r1 <;> cases r2 <;> cases s3l <;> cases s3e <;> cases org <;>
      simp_all [RedisRead.isHit, originNoData, MainGo.getTranslationsCached,
        beq_iff_eq, List.isEmpty_iff] <;>
      split_ifs <;>
      simp_all [List.length_eq_zero]
  · intro appID lang nested force env
    simp only [SingleApp.getTranslationsCached]
    repeat' split
    all_goals rfl
  · intro appKey env
    rfl

/-- Witness for C2: a concrete lookup in which Redis errors, the second
check misses, the durable tier is disabled and the origin has a transport
error satisfies the all-tiers-fail condition and returns the two-byte
empty-object sentinel. -/
theorem c2_error_absorption_witness :
    MainGo.allTiersFail "app"
      { redis1 := RedisRead.errOther, fetchedAtRaw := none, nowHit := 0,
        redis2 := RedisRead.missNil, s3Enabled := false, s3Latest := Except.error (),
        nowS3 := 0, s3CreatedAt := none, origin := OriginResp.transportError,
        nowOrigin := 0 } = true ∧
    (MainGo.getTranslationsCached "app" "en" false
      { redis1 := RedisRead.errOther, fetchedAtRaw := none, nowHit := 0,
        redis2 := RedisRead.missNil, s3Enabled := false, s3Latest := Except.error (),
        nowS3 := 0, s3CreatedAt := none, origin := OriginResp.transportError,
        nowOrigin := 0 }).value = emptyObjectBytes :=
  ⟨by decide, c2_error_absorption.2.1 "app" "en" false
    { redis1 := RedisRead.errOther, fetchedAtRaw := none, nowHit := 0,
      redis2 := RedisRead.missNil, s3Enabled := false, s3Latest := Except.error (),
      nowS3 := 0, s3CreatedAt := none, origin := OriginResp.transportError,
      nowOrigin := 0 } (by decide)⟩


/-- C5 counterexample: the detached task scheduled for a stale hit is not
an origin-only forced re-run. A hit whose sidecar age is 16 minutes
schedules exactly one task in the refresh namespace, but the scheduled
task re-runs the same non-forced lookup (the main.go variant has no forced
mode): executed while the primary cache still holds the entry, the task
returns the cached value from the Redis tier and never contacts the
origin. -/
theorem c5_staleness_refresh_counterexample :
    (MainGo.getTranslationsCached "app" "en" false
      { redis1 := RedisRead.hit [9], fetchedAtRaw := some "0",
        nowHit := 16 * 60 * nsPerSecond, redis2 := RedisRead.missNil,
        s3Enabled := false, s3Latest := Except.error (), nowS3 := 0,
        s3CreatedAt := none, origin := OriginResp.transportError,
        nowOrigin := 0 }).refreshSched = ["refresh:translations:app:en:flat"] ∧
    (MainGo.getTranslationsCached "app" "en" false
      { redis1 := RedisRead.hit [9], fetchedAtRaw := some "0",
        nowHit := 16 * 60 * nsPerSecond, redis2 := RedisRead.missNil,
        s3Enabled := false, s3Latest := Except.error (), nowS3 := 0,
        s3CreatedAt := none, origin := OriginResp.transportError,
        nowOrigin := 0 }).originCalled = false ∧
    (MainGo.getTranslationsCached "app" "en" false
      { redis1 := RedisRead.hit [9], fetchedAtRaw := some "0",
        nowHit := 16 * 60 * nsPerSecond, redis2 := RedisRead.missNil,
        s3Enabled := false, s3Latest := Except.error (), nowS3 := 0,
        s3CreatedAt := none, origin := OriginResp.transportError,
        nowOrigin := 0 }).value = [9] := by
  decide

/-- C5 amended: shouldRefresh holds exactly when the fetched-at time is
non-zero and the age exceeds the 15-minute threshold, and a primary-cache
hit with a parseable sidecar schedules exactly one detached background
task — re-running the same non-forced lookup — through the refresh
namespace when stale, and none when the age is at or below the
threshold. -/
theorem c5_staleness_refresh_amended :
    (∀ (now fa : Int),
      shouldRefresh now fa = true ↔ (fa ≠ zeroTimeNs ∧ staleAfterNs < now - fa)) ∧
    (∀ (appID lang : String) (nested : Bool) (env : MainGo.Env) (b : Bytes)
        (raw : String) (t : Int),
      env.redis1 = RedisRead.hit b → env.fetchedAtRaw = some raw →
      parseUnixSeconds raw = (t, true) → shouldRefresh env.nowHit t = true →
      (MainGo.getTranslationsCached appID lang nested env).refreshSched =
        [scheduleRefreshBestEffort ("translations:" ++ appID ++ ":" ++ lang ++ ":" ++
          (if nested then "nested" else "flat"))]) ∧
    (∀ (appID lang : String) (nested : Bool) (env : MainGo.Env) (b : Bytes)
        (raw : String) (t : Int),
      env.redis1 = RedisRead.hit b → env.fetchedAtRaw = some raw →
      parseUnixSeconds raw = (t, true) → shouldRefresh env.nowHit t = false →
      (MainGo.getTranslationsCached appID lang nested env).refreshSched = []) := by
  refine ⟨?_, ?_, ?_⟩
  · intro now fa
    by_cases h : fa = zeroTimeNs
    · simp [shouldRefresh, h]
    · simp [shouldRefresh, h]
  · intro appID lang nested env b raw t h1 h2 h3 h4
    rcases env with ⟨r1, fraw, nh, r2, s3e, s3l, ns3, sca, org, no⟩
    simp only at h1 h2 h3 h4
    subst h1
    subst h2
    simp [MainGo.getTranslationsCached, h3, h4]
  · intro appID lang nested env b raw t h1 h2 h3 h4
    rcases env with ⟨r1, fraw, nh, r2, s3e, s3l, ns3, sca, org, no⟩
    simp only at h1 h2 h3 h4
    subst h1
    subst h2
    simp [MainGo.getTranslationsCached, h3, h4]

/-- Witness for the amended C5: with the sidecar at unix second 0, a hit
observed at 16 minutes schedules exactly one refresh task in the refresh
namespace, and a hit observed at 10 minutes schedules none. -/
theorem c5_staleness_refresh_amended_witness :
    parseUnixSeconds "0" = (0, true) ∧
    shouldRefresh (16 * 60 * nsPerSecond) 0 = true ∧
    shouldRefresh (10 * 60 * nsPerSecond) 0 = false ∧
    (MainGo.getTranslationsCached "app" "en" false
      { redis1 := RedisRead.hit [9], fetchedAtRaw := some "0",
        nowHit := 16 * 60 * nsPerSecond, redis2 := RedisRead.missNil,
        s3Enabled := false, s3Latest := Except.error (), nowS3 := 0,
        s3CreatedAt := none, origin := OriginResp.transportError,
        nowOrigin := 0 }).refreshSched = ["refresh:translations:app:en:flat"] ∧
    (MainGo.getTranslationsCached "app" "en" false
      { redis1 := RedisRead.hit [9], fetchedAtRaw := some "0",
        nowHit := 10 * 60 * nsPerSecond, redis2 := RedisRead.missNil,
        s3Enabled := false, s3Latest := Except.error (), nowS3 := 0,
        s3CreatedAt := none, origin := OriginResp.transportError,
        nowOrigin := 0 }).refreshSched = [] :=
  ⟨by decide, by decide, by decide,
   c5_staleness_refresh_amended.2.1 "app" "en" false _ [9] "0" 0 rfl rfl (by decide)
     (by decide),
   c5_staleness_refresh_amended.2.2 "app" "en" false _ [9] "0" 0 rfl rfl (by decide)
     (by decide)⟩

/-- C6: putVersionAndLatest followed by getLatest returns the payload
unchanged; the versioned object is retrievable under its own name; no
other object is touched; and after a second put of a different payload —
under a version name distinct from the first, as the timestamp-plus-hash
naming provides — the first versioned object is still retrievable
unmodified while getLatest returns the second payload. -/
theorem c6_put_get_roundtrip (st : S3Store) (appID lang ts1 ts2 : String) (p p2 : Bytes)
    (hne : p2 ≠ p)
    (hk1lat : s3VersionKey appID lang ts1 (sha256Hex p) ≠ s3LatestKey appID lang)
    (hk12 : s3VersionKey appID lang ts2 (sha256Hex p2) ≠
      s3VersionKey appID lang ts1 (sha256Hex p)) :
    getLatest (putVersionAndLatest st appID lang ts1 p) appID lang = some p ∧
    s3Read (putVersionAndLatest st appID lang ts1 p)
      (s3VersionKey appID lang ts1 (sha256Hex p)) = some p ∧
    (∀ k, k ≠ s3VersionKey appID lang ts1 (sha256Hex p) → k ≠ s3LatestKey appID lang →
      s3Read (putVersionAndLatest st appID lang ts1 p) k = s3Read st k) ∧
    s3Read (putVersionAndLatest (putVersionAndLatest st appID lang ts1 p) appID lang ts2 p2)
      (s3VersionKey appID lang ts1 (sha256Hex p)) = some p ∧
    getLatest (putVersionAndLatest (putVersionAndLatest st appID lang ts1 p) appID lang ts2 p2)
      appID lang = some p2 := by
  have e1 : (s3LatestKey appID lang == s3VersionKey appID lang ts1 (sha256Hex p)) = false :=
    beq_eq_false_iff_ne.mpr (Ne.symm hk1lat)
  have e2 : (s3VersionKey appID lang ts2 (sha256Hex p2) ==
      s3VersionKey appID lang ts1 (sha256Hex p)) = false :=
    beq_eq_false_iff_ne.mpr hk12
  refine ⟨?_, ?_, ?_, ?_, ?_⟩
  · simp [getLatest, putVersionAndLatest, s3Read, s3Write, List.find?]
  · simp [getLatest, putVersionAndLatest, s3Read, s3Write, List.find?, e1]
  · intro k hk1 hk2
    have e3 : (s3LatestKey appID lang == k) = false :=
      beq_eq_false_iff_ne.mpr (Ne.symm hk2)
    have e4 : (s3VersionKey appID lang ts1 (sha256Hex p) == k) = false :=
      beq_eq_false_iff_ne.mpr (Ne.symm hk1)
    simp [putVersionAndLatest, s3Read, s3Write, List.find?, e3, e4]
  · simp [getLatest, putVersionAndLatest, s3Read, s3Write, List.find?, e1, e2]
  · simp [getLatest, putVersionAndLatest, s3Read, s3Write, List.find?]

/-- Witness for C6 at concrete inputs: two one-byte payloads stored under
distinct timestamps in an empty bucket. -/
theorem c6_put_get_roundtrip_witness :
    ([2] : Bytes) ≠ [1] ∧
    s3VersionKey "app" "en_flat" "t1" (sha256Hex [1]) ≠ s3LatestKey "app" "en_flat" ∧
    s3VersionKey "app" "en_flat" "t2" (sha256Hex [2]) ≠
      s3VersionKey "app" "en_flat" "t1" (sha256Hex [1]) ∧
    getLatest (putVersionAndLatest [] "app" "en_flat" "t1" [1]) "app" "en_flat" = some [1] ∧
    s3Read (putVersionAndLatest (putVersionAndLatest [] "app" "en_flat" "t1" [1])
        "app" "en_flat" "t2" [2])
      (s3VersionKey "app" "en_flat" "t1" (sha256Hex [1])) = some [1] ∧
    getLatest (putVersionAndLatest (putVersionAndLatest [] "app" "en_flat" "t1" [1])
        "app" "en_flat" "t2" [2]) "app" "en_flat" = some [2] := by
  have h := c6_put_get_roundtrip [] "app" "en_flat" "t1" "t2" [1] [2]
    (by decide) (by decide) (by decide)
  exact ⟨by decide, by decide, by decide, h.1, h.2.2.2.1, h.2.2.2.2⟩

/-- The hypermedia envelope payload the languages endpoint returns,
carrying the embedded collection with tags en and it. -/
def envelopePayload : JValue :=
  JValue.jobj [("_embedded", JValue.jobj [("languages", JValue.jarr
    [JValue.jobj [("tag", JValue.jstr "en")], JValue.jobj [("tag", JValue.jstr "it")]])])]

/-- A tier environment whose origin answers 200 with a one-byte body, so
every forced lookup succeeds. -/
def sEnvOriginOk : SingleApp.SEnv :=
  { redis1 := RedisRead.missNil, redis2 := RedisRead.missNil, s3Enabled := false,
    s3Latest := Except.error (), nowS3 := 0,
    origin := OriginResp.response 200 [5], nowOrigin := 0 }

/-- Rebuild environment in which the languages payload parses to the
hypermedia envelope and every translations fetch would succeed. -/
def refreshEnvEnvelope : SingleApp.RefreshEnv :=
  { langsEnv := sEnvOriginOk, langsParsed := some envelopePayload,
    transEnv := fun _ _ => sEnvOriginOk, startedAt := "t0", finishedAt := "t1" }

/-- A correctly signed webhook request against that rebuild environment. -/
def updateEnvEnvelope : SingleApp.UpdateHandlerEnv :=
  { secret := "s3cr3t",
    header := HeaderInput.parsed 1000000 (expectedSignature "s3cr3t" 1000000 [123, 125]),
    body := [123, 125], nowMs := 1000000, refreshEnv := refreshEnvEnvelope }

/-- C7 divergence: the provider delivers languages as a hypermedia envelope
(whose embedded collection the rest of the code understands: the
availableLanguagesFromPayload decoder extracts en and it from it), but
refreshAppTranslations unmarshals the payload as a bare array of tag
records, which fails on the envelope; so an accepted webhook returns 200
with a summary recording a decode failure, no languages and zero
refreshes — instead of rebuilding every known language in both modes. With
a bare-array payload the same rebuild does refresh both languages in both
modes. -/
theorem c7_webhook_rebuild_envelope_bug :
    unmarshalTolgeeLanguages envelopePayload = Except.error () ∧
    availableLanguagesFromPayload (some envelopePayload) = ["en", "it"] ∧
    SingleApp.makeUpdateHandler "app" updateEnvEnvelope =
      (200, some { app := "app", languages := [], refreshed := 0,
                   failures := [SingleApp.FailureMsg.languagesDecode],
                   startedAt := "t0", finishedAt := "t1" }) ∧
    SingleApp.refreshAppTranslations "app" true
      { langsEnv := sEnvOriginOk,
        langsParsed := some (JValue.jarr
          [JValue.jobj [("tag", JValue.jstr "en")],
           JValue.jobj [("tag", JValue.jstr "it")]]),
        transEnv := fun _ _ => sEnvOriginOk, startedAt := "t0", finishedAt := "t1" } =
      { app := "app", languages := ["en", "it"], refreshed := 4, failures := [],
        startedAt := "t0", finishedAt := "t1" } := by
  refine ⟨by decide, by decide, by decide, by decide⟩

/-- C8 divergence: the single-app service issues its Tolgee requests from a
client configured with a zero timeout — no timeout at all in resty —
although the adjacent comment and the spec promise a bounded (10 second)
request timeout; the multi-app variant does configure 10 seconds. -/
theorem c8_unbounded_origin_timeout :
    SingleApp.tolgeeTimeoutSecondsSingleApp = 0 ∧
    SingleApp.tolgeeTimeoutSecondsMainGo = 10 :=
  ⟨rfl, rfl⟩

end MensaLoc
